import Mathlib

/-!
Verification of the payment-platform core (payment_verification.py,
ml_classifier.py, app.py) against its specification.

The Python code is shallowly embedded: strings are `List Char` (with
`String` wrappers at component boundaries), Python `int` is `Int`, the
external store's lookup capability is an injected `String → Option StoredTx`,
and the audit-insert capability is an injected `Bool` (true = the insert
succeeded, false = it raised). Each concrete regular expression of the
source is embedded as a dedicated matcher implementing Python `re.search`
semantics (leftmost match, greedy quantifiers with backtracking where the
pattern makes backtracking observable). `\d` and `\s` are modelled at ASCII,
as are `str.lower`/`str.strip`, matching the ASCII message formats the
system processes.
-/

/-! ## Character classes and basic list helpers -/

/-- Python whitespace (`str.strip` / regex `\s`), ASCII part. -/
def isWsB (c : Char) : Bool :=
  c = ' ' || c = '\t' || c = '\n' || c = '\r' || c = '\x0b' || c = '\x0c'

/-- Lowercase a character list (Python `str.lower`, ASCII part). -/
def lowerL (l : List Char) : List Char := l.map Char.toLower

/-- Test `startsW n h` : `n` is a prefix of `h` (Python `str.startswith`). -/
def startsW : List Char → List Char → Bool
  | [], _ => true
  | _ :: _, [] => false
  | a :: as, b :: bs => a = b && startsW as bs

/-- Test `substrB n h` : `n` occurs as a contiguous substring of `h`
(Python `n in h`). -/
def substrB (n : List Char) : List Char → Bool
  | [] => n.isEmpty
  | b :: bs => startsW n (b :: bs) || substrB n bs

/-- Test `endsW l pat` : `l` ends with `pat` (Python `str.endswith`). -/
def endsW (l pat : List Char) : Bool := startsW pat.reverse l.reverse

/-- Python `str.strip()`: drop leading and trailing whitespace. -/
def stripB (l : List Char) : List Char :=
  ((l.dropWhile isWsB).reverse.dropWhile isWsB).reverse

/-- Python `s[-k:]`: the last `k` characters (all of `s` when shorter). -/
def lastN (k : Nat) (l : List Char) : List Char := l.drop (l.length - k)

/-! ## Python `int()` on a cleaned decimal string -/

/-- Value of a nonempty all-digit string, `none` otherwise. -/
def natDigits (l : List Char) : Option Nat :=
  if l ≠ [] ∧ l.all Char.isDigit then
    some (l.foldl (fun a c => a * 10 + (c.toNat - '0'.toNat)) 0)
  else none

/-- Python `int(s)` on an already-stripped string: optional sign, then one
or more decimal digits. -/
def pyInt (l : List Char) : Option Int :=
  match l with
  | '+' :: t => (natDigits t).map (fun n => (n : Int))
  | '-' :: t => (natDigits t).map (fun n => -(n : Int))
  | _ => (natDigits l).map (fun n => (n : Int))

/-! ## payment_verification.py -/

/-- A row of the `Messages` table, restricted to the fields the
verification functions read via `transaction.get(...)`; a field absent
from the row is modelled as the empty string (the `.get` default). -/
structure StoredTx where
  amount : String
  sender_name : String
  sender_phone_digits : String
  deriving DecidableEq

/-- The dict returned by both verification functions: `status`, `message`,
and (only on the approved path of the identity check) `amount`. -/
structure Outcome where
  status : String
  message : String
  amount : Option Int
  deriving DecidableEq

/-- Python `s.replace(' RWF', '')`: delete every (non-overlapping, left-to-right)
occurrence of the four-character literal `" RWF"`. -/
def dropRWF : List Char → List Char
  | ' ' :: 'R' :: 'W' :: 'F' :: t => dropRWF t
  | c :: t => c :: dropRWF t
  | [] => []

/-- Embeds `transaction.get('amount','').replace(' RWF','').replace(',','').strip()`
followed by `int(...)`. -/
def parse_amount (a : String) : Option Int :=
  pyInt (stripB ((dropRWF a.data).filter (fun c => c ≠ ',')))

/-- Embeds `verify_payment` (payment_verification.py lines 15-35). The store's
select-by-txid is the injected `find`; the code uses the first row of the
result set, so `find` returns that first row or `none`. -/
def verify_payment (find : String → Option StoredTx) (txid : String)
    (required_amount : Int) : Outcome :=
  match find txid with
  | none => ⟨"not_approved", "Payment is not approved.", none⟩
  | some tx =>
    match parse_amount tx.amount with
    | none => ⟨"not_approved", "Payment is not approved (invalid amount format).", none⟩
    | some paid =>
      if paid = required_amount then
        ⟨"approved", "Payment is approved.", none⟩
      else if paid < required_amount then
        ⟨"not_approved",
         "Payment is not approved. You are short by " ++
           toString (required_amount - paid) ++ " RWF.", none⟩
      else
        ⟨"approved", "Payment is approved.", none⟩

/-- Step 3 of `verify_payment_with_client_details`: the name-rule failure
condition `not sms_sender_name or (client_name_lower not in sms_sender_name
and sms_sender_name not in client_name_lower)`. -/
def name_rule_fails (tx : StoredTx) (client_name : String) : Bool :=
  let sms := stripB (lowerL tx.sender_name.data)
  let cn := stripB (lowerL client_name.data)
  sms.isEmpty || (!(substrB cn sms) && !(substrB sms cn))

/-- Step 4: `client_phone.replace('+','').replace(' ','').replace('-','')[-3:]`. -/
def client_last_digits (client_phone : String) : List Char :=
  lastN 3 (client_phone.data.filter (fun c => c ≠ '+' && c ≠ ' ' && c ≠ '-'))

/-- Step 4 failure condition: the stored `sender_phone_digits` is nonempty
and the claimed suffix does not end with its last two characters. -/
def phone_rule_fails (tx : StoredTx) (client_phone : String) : Bool :=
  let sms := tx.sender_phone_digits.data
  !sms.isEmpty && !(endsW (client_last_digits client_phone) (lastN 2 sms))

/-- Step 5: insert the audit record into the `payments` table and build the
final outcome. `insertOk` is the injected insert capability: `true` when the
insert succeeds, `false` when it raises (caught by the `except` branch). -/
def vwcdStore (paid : Int) (insertOk : Bool) : Outcome :=
  if insertOk then
    ⟨"approved",
     "Payment verified successfully! Amount received: " ++ toString paid ++ " RWF",
     some paid⟩
  else
    ⟨"error", "Failed to record payment verification.", none⟩

/-- Steps 4-5 of `verify_payment_with_client_details`: the phone rule,
then the store step. -/
def vwcdPhone (tx : StoredTx) (client_phone : String) (paid : Int)
    (insertOk : Bool) : Outcome :=
  if phone_rule_fails tx client_phone then
    ⟨"not_approved", "Phone number verification failed. Please check your mobile number.", none⟩
  else vwcdStore paid insertOk

/-- Steps 3-5 of `verify_payment_with_client_details`: the name rule, then
the phone rule, then the store step. -/
def vwcdIdentity (tx : StoredTx) (client_name client_phone : String)
    (paid : Int) (insertOk : Bool) : Outcome :=
  if name_rule_fails tx client_name then
    ⟨"not_approved", "Name verification failed. Please ensure you entered the correct name.", none⟩
  else vwcdPhone tx client_phone paid insertOk

/-- Embeds `verify_payment_with_client_details` (payment_verification.py
lines 37-94). -/
def verify_payment_with_client_details (find : String → Option StoredTx)
    (txid client_name client_phone : String) (required_amount : Int)
    (insertOk : Bool) : Outcome :=
  match find txid with
  | none => ⟨"not_approved", "Payment not found. Please check your TxID.", none⟩
  | some tx =>
    match parse_amount tx.amount with
    | none => ⟨"not_approved", "Invalid payment amount format.", none⟩
    | some paid =>
      if paid < required_amount then
        ⟨"not_approved",
         "Insufficient payment. You are short by " ++
           toString (required_amount - paid) ++ " RWF.", none⟩
      else vwcdIdentity tx client_name client_phone paid insertOk

/-! ## Regex matchers

Each concrete pattern of the source is embedded as a match-at-position
function; `searchO`/`searchB` implement `re.search`'s leftmost scan over
all start positions (including the end-of-string position). -/

/-- Match a literal at the start of `l`, returning the rest. -/
def litAt : List Char → List Char → Option (List Char)
  | [], l => some l
  | _ :: _, [] => none
  | p :: ps, c :: cs => if c = p then litAt ps cs else none

/-- Match a literal at the start of `l`, case-insensitively
(`re.IGNORECASE`, ASCII folding), returning the rest. -/
def litAtCI : List Char → List Char → Option (List Char)
  | [], l => some l
  | _ :: _, [] => none
  | p :: ps, c :: cs => if c.toLower = p.toLower then litAtCI ps cs else none

/-- Split off the maximal leading run of characters satisfying `p`. -/
def classRun (p : Char → Bool) : List Char → List Char × List Char
  | [] => ([], [])
  | c :: t =>
    if p c then
      let (d, r) := classRun p t
      (c :: d, r)
    else ([], c :: t)

/-- Pattern `\d*` greedily: the maximal leading digit run and the rest. -/
def digitRun : List Char → List Char × List Char := classRun Char.isDigit

/-- Pattern `\s*` greedily: the maximal leading whitespace run and the rest. -/
def wsRun : List Char → List Char × List Char := classRun isWsB

/-- Pattern `[:\s]*` greedily: drop the maximal leading run of colons/whitespace.
(The following `\d+` cannot consume a colon or whitespace, so the greedy
run needs no backtracking.) -/
def sepRun : List Char → List Char
  | [] => []
  | c :: t => if c = ':' || isWsB c then sepRun t else c :: t

/-- Exactly `k` digits, returning them and the rest. -/
def digitsN : Nat → List Char → Option (List Char × List Char)
  | 0, l => some ([], l)
  | _ + 1, [] => none
  | k + 1, c :: t =>
    if c.isDigit then (digitsN k t).map (fun p => (c :: p.1, p.2)) else none

/-- Leftmost search with an `Option`-valued matcher (`re.search`). -/
def searchO {α : Type} (m : List Char → Option α) : List Char → Option α
  | [] => m []
  | c :: t =>
    match m (c :: t) with
    | some a => some a
    | none => searchO m t

/-- Leftmost search with a `Bool`-valued matcher. -/
def searchB (m : List Char → Bool) : List Char → Bool
  | [] => m []
  | c :: t => m (c :: t) || searchB m t

/-- Pattern `TxId[:\s]*(\d+)` at a position, case-sensitively (the app.py call
site), returning the captured digit run. The greedy `[:\s]*` and `\d+`
never overlap, so the match is deterministic. -/
def matchTxIdAtCS (l : List Char) : Option String :=
  match litAt "TxId".data l with
  | none => none
  | some r =>
    let (d, _) := digitRun (sepRun r)
    if d.isEmpty then none else some (String.mk d)

/-- Pattern `TxId[:\s]*(\d+)` at a position with `re.IGNORECASE` (the
ml_classifier.py call site). -/
def matchTxIdAtCI (l : List Char) : Option String :=
  match litAtCI "TxId".data l with
  | none => none
  | some r =>
    let (d, _) := digitRun (sepRun r)
    if d.isEmpty then none else some (String.mk d)

/-- Pattern `\*161\*TxId:(\d+)\*R\*` at a position, case-sensitively (the app.py
fallback). The greedy `\d+` stops at the literal `*`, so no backtracking
is observable. -/
def match161AtCS (l : List Char) : Option String :=
  match litAt "*161*TxId:".data l with
  | none => none
  | some r =>
    let (d, r2) := digitRun r
    if d.isEmpty then none
    else
      match litAt "*R*".data r2 with
      | some _ => some (String.mk d)
      | none => none

/-- Pattern `\*161\*TxId:\d+\*R\*` at a position with `re.IGNORECASE` (the MoMo
pattern loop of the classifier); the captured digit run is returned
although that call site only tests for a hit. -/
def match161AtCI (l : List Char) : Option String :=
  match litAtCI "*161*TxId:".data l with
  | none => none
  | some r =>
    let (d, r2) := digitRun r
    if d.isEmpty then none
    else
      match litAtCI "*R*".data r2 with
      | some _ => some (String.mk d)
      | none => none

/-- Patterns `You have received \d+ RWF` / `You have sent \d+ RWF` (always searched
with `re.IGNORECASE`): `mid` is the leading literal up to and including the
space before the digits. -/
def matchYouAt (mid : List Char) (l : List Char) : Bool :=
  match litAtCI mid l with
  | none => false
  | some r =>
    let (d, r2) := digitRun r
    !d.isEmpty && (litAtCI " RWF".data r2).isSome

/-- Pattern `(?:,\d{3})*` greedily: consume maximal repeats of a comma followed by
exactly three digits. (The following `\s*RWF` cannot start with a comma,
so the greedy repeat needs no backtracking.) -/
def commaGroups : List Char → List Char × List Char
  | ',' :: a :: b :: c :: t =>
    if a.isDigit && b.isDigit && c.isDigit then
      let (g, r) := commaGroups t
      (',' :: a :: b :: c :: g, r)
    else ([], ',' :: a :: b :: c :: t)
  | l => ([], l)

/-- First alternative of the amount pattern, `\d{1,3}(?:,\d{3})*`, followed
by `\s*RWF`, at a fixed position: `\d{1,3}` is greedy with real
backtracking, so try 3, then 2, then 1 leading digits. Returns
(group 1, group 0). -/
def amountBranch1 (l : List Char) : Option (List Char × List Char) :=
  let d := (digitRun l).1
  let tryk := fun (k : Nat) =>
    if 1 ≤ k && k ≤ d.length then
      let ds := l.take k
      let (g, r2) := commaGroups (l.drop k)
      let (w, r3) := wsRun r2
      match litAt "RWF".data r3 with
      | some _ => some (ds ++ g, ds ++ g ++ w ++ "RWF".data)
      | none => none
    else none
  match tryk 3 with
  | some a => some a
  | none =>
    match tryk 2 with
    | some a => some a
    | none => tryk 1

/-- Second alternative, `\d+`, followed by `\s*RWF`, at a fixed position.
The greedy `\d+` stops before a character that is neither whitespace nor
`R`, so it is deterministic. Returns (group 1, group 0). -/
def amountBranch2 (l : List Char) : Option (List Char × List Char) :=
  let (d, r) := digitRun l
  if d.isEmpty then none
  else
    let (w, r2) := wsRun r
    match litAt "RWF".data r2 with
    | some _ => some (d, d ++ w ++ "RWF".data)
    | none => none

/-- Pattern `(\d{1,3}(?:,\d{3})*|\d+)\s*RWF` at a position: Python tries the first
alternative (with its backtracking) before the second. Returns
(group 1, group 0). -/
def matchAmountAt (l : List Char) : Option (List Char × List Char) :=
  match amountBranch1 l with
  | some a => some a
  | none => amountBranch2 l

/-- Pattern `at (\d{4}-\d{2}-\d{2} \d{2}:\d{2}:\d{2})` at a position, returning the
captured timestamp. -/
def matchTimestampAt (l : List Char) : Option String :=
  match litAt "at ".data l with
  | none => none
  | some r =>
    match digitsN 4 r with
    | none => none
    | some (y, r1) =>
      match litAt "-".data r1 with
      | none => none
      | some r2 =>
        match digitsN 2 r2 with
        | none => none
        | some (mo, r3) =>
          match litAt "-".data r3 with
          | none => none
          | some r4 =>
            match digitsN 2 r4 with
            | none => none
            | some (dy, r5) =>
              match litAt " ".data r5 with
              | none => none
              | some r6 =>
                match digitsN 2 r6 with
                | none => none
                | some (hh, r7) =>
                  match litAt ":".data r7 with
                  | none => none
                  | some r8 =>
                    match digitsN 2 r8 with
                    | none => none
                    | some (mi, r9) =>
                      match litAt ":".data r9 with
                      | none => none
                      | some r10 =>
                        match digitsN 2 r10 with
                        | none => none
                        | some (ss, _) =>
                          some (String.mk
                            (y ++ '-' :: mo ++ '-' :: dy ++ ' ' :: hh ++
                              ':' :: mi ++ ':' :: ss))

/-- Class `[A-Za-z ]` (the app.py sender-name character class). -/
def isNameChar (c : Char) : Bool :=
  ('A' ≤ c && c ≤ 'Z') || ('a' ≤ c && c ≤ 'z') || c = ' '

/-- Class `[A-Za-z\s]` (the ml_classifier.py sender-name character class). -/
def isNameWsChar (c : Char) : Bool :=
  ('A' ≤ c && c ≤ 'Z') || ('a' ≤ c && c ≤ 'z') || isWsB c

/-- Does the list start with the given character? -/
def headIs (c : Char) : List Char → Bool
  | [] => false
  | x :: _ => x = c

/-- Backtracking for `([A-Za-z ]+) \(`: `gRev` is the reversed candidate
group (longest first); shrink it from the right until the literal `" ("`
follows, requiring a nonempty group. -/
def senderBT : List Char → List Char → Option (List Char)
  | [], _ => none
  | c :: g, rest =>
    if (litAt " (".data rest).isSome then some (c :: g).reverse
    else senderBT g (c :: rest)

/-- Pattern `from ([A-Za-z ]+) \(` at a position, returning the captured group
after `.strip()` (app.py). -/
def matchSenderAppAt (l : List Char) : Option String :=
  match litAt "from ".data l with
  | none => none
  | some r =>
    let (g, rest) := classRun isNameChar r
    (senderBT g.reverse rest).map (fun n => String.mk (stripB n))

/-- Backtracking for `([A-Za-z\s]+)\s*\(`: shrink the group from the right
until `\s*` then `(` follows. -/
def senderMlBT : List Char → List Char → Option (List Char)
  | [], _ => none
  | c :: g, rest =>
    if headIs '(' (wsRun rest).2 then some (c :: g).reverse
    else senderMlBT g (c :: rest)

/-- Pattern `from ([A-Za-z\s]+)\s*\(` at a position, returning the captured group
after `.strip()` (ml_classifier.py). -/
def matchSenderMlAt (l : List Char) : Option String :=
  match litAt "from ".data l with
  | none => none
  | some r =>
    let (g, rest) := classRun isNameWsChar r
    (senderMlBT g.reverse rest).map (fun n => String.mk (stripB n))

/-- Pattern `\(\*+(\d{2,3})\)` at a position: a literal `(`, a nonempty greedy
asterisk run (deterministic: an asterisk is not a digit), then `\d{2,3}`
greedily — try exactly 3 digits then `)`, else exactly 2 digits then `)`. -/
def matchPhoneAt (l : List Char) : Option String :=
  match l with
  | '(' :: r =>
    let (st, r2) := classRun (fun c => c = '*') r
    if st.isEmpty then none
    else
      let try3 :=
        match digitsN 3 r2 with
        | some (d, r3) => if headIs ')' r3 then some (String.mk d) else none
        | none => none
      match try3 with
      | some a => some a
      | none =>
        match digitsN 2 r2 with
        | some (d, r3) => if headIs ')' r3 then some (String.mk d) else none
        | none => none
  | _ => none

/-! ## ml_classifier.py — PaymentSMSClassifier -/

/-- List `self.payment_success_keywords`. -/
def success_keywords : List String :=
  ["received", "sent", "paid", "successful", "completed",
   "confirmed", "approved", "transaction", "transfer"]

/-- List `self.payment_failure_keywords`. -/
def failure_keywords : List String :=
  ["failed", "declined", "insufficient", "pending",
   "cancelled", "error", "rejected"]

/-- The `self.momo_patterns` loop: does any of the three format patterns
match somewhere in the text (searched with `re.IGNORECASE`)? -/
def momoHit (s : List Char) : Bool :=
  searchB (fun l => (match161AtCI l).isSome) s ||
  searchB (matchYouAt "You have received ".data) s ||
  searchB (matchYouAt "You have sent ".data) s

/-- Count `sum(1 for keyword in kws if keyword in text_lower)`. -/
def countKw (kws : List String) (tl : List Char) : Nat :=
  (kws.filter (fun k => substrB k.data tl)).length

/-- Is some keyword of `kws` a substring of `tl` (the source's
first-hit-wins loops over the keyword lists)? -/
def anyKw (kws : List String) (tl : List Char) : Bool :=
  kws.any (fun k => substrB k.data tl)

/-- Embeds `PaymentSMSClassifier.is_payment_related` (ml_classifier.py
lines 80-104). -/
def is_payment_related (s : List Char) : Bool :=
  momoHit s ||
    (decide (0 < countKw success_keywords (lowerL s)) ||
     decide (0 < countKw failure_keywords (lowerL s)))

/-- Embeds `PaymentSMSClassifier.classify_payment_status` (ml_classifier.py
lines 106-131). -/
def classify_payment_status (s : List Char) : String :=
  if !is_payment_related s then "unknown"
  else if anyKw failure_keywords (lowerL s) then "failed"
  else if anyKw success_keywords (lowerL s) then "success"
  else "unknown"

/-- Embeds `PaymentSMSClassifier.get_confidence_score` (ml_classifier.py
lines 133-164). The Python floats 0.7, 0.3, 0.1, 1.0 are embedded as the
rationals they denote; every score reachable here is a small multiple of
1/10, on which the float arithmetic of the source is exact. -/
def get_confidence_score (s : List Char) : ℚ :=
  if (stripB s).isEmpty then 0
  else
    let base : ℚ := if momoHit s then 7/10 else 0
    let hits : ℚ :=
      (countKw success_keywords (lowerL s) + countKw failure_keywords (lowerL s) : Nat)
    min 1 (base + min (3/10) (hits * (1/10)))

/-- The dict built by `PaymentSMSClassifier.extract_payment_info`. -/
structure PaymentInfo where
  txid : String
  amount : String
  sender_name : String
  phone_digits : String
  is_payment_sms : Bool
  deriving DecidableEq

/-- Embeds `PaymentSMSClassifier.extract_payment_info` (ml_classifier.py
lines 34-78): all fields start empty, `is_payment_sms` is the relatedness
gate, and field extraction runs only when the gate passes. -/
def extract_payment_info (s : List Char) : PaymentInfo :=
  if !is_payment_related s then ⟨"", "", "", "", false⟩
  else
    { txid := (searchO matchTxIdAtCI s).getD ""
      amount :=
        match searchO matchAmountAt s with
        | some (g1, _) => String.mk g1
        | none => ""
      sender_name := (searchO matchSenderMlAt s).getD ""
      phone_digits := (searchO matchPhoneAt s).getD ""
      is_payment_sms := true }

/-! ## app.py — extract_fields -/

/-- The dict built by `extract_fields`; the `timestamp or None` of the
source makes the timestamp `none` exactly when no match was found. -/
structure Fields where
  raw_text : String
  txid : String
  amount : String
  sender_name : String
  timestamp : Option String
  deriving DecidableEq

/-- Embeds `extract_fields` (app.py lines 30-63). Both TxId patterns are searched
case-sensitively (no `re.IGNORECASE` at these call sites); the amount keeps
`group(0)` — the full `<digits> RWF` substring. -/
def extract_fields (s : String) : Fields :=
  let txid :=
    match searchO matchTxIdAtCS s.data with
    | some d => d
    | none => (searchO match161AtCS s.data).getD ""
  let ts := (searchO matchTimestampAt s.data).getD ""
  { raw_text := s
    txid := txid
    amount :=
      match searchO matchAmountAt s.data with
      | some (_, g0) => String.mk g0
      | none => ""
    sender_name := (searchO matchSenderAppAt s.data).getD ""
    timestamp := if ts = "" then none else some ts }

/-! ## Concrete stores used by witnesses and examples -/

/-- A store holding `TX1 -> amount="80 RWF"` (spec §8 example). -/
def findC1 : String → Option StoredTx :=
  fun t => if t = "TX1" then some ⟨"80 RWF", "", ""⟩ else none

/-- A store holding the spec §8 `TX2` record: `amount="150 RWF"`,
`senderName="john smith"`, `phoneDigits="56"`. -/
def findC2 : String → Option StoredTx :=
  fun t => if t = "TX2" then some ⟨"150 RWF", "john smith", "56"⟩ else none

/-- A store holding `TX9` with an all-whitespace (hence nonempty) stored
sender name, a sufficient amount, and no stored phone digits. -/
def findC9 : String → Option StoredTx :=
  fun t => if t = "TX9" then some ⟨"150 RWF", " ", ""⟩ else none

/-! ## Helper lemmas -/

/-- A string is a prefix of itself. -/
theorem startsW_refl (l : List Char) : startsW l l = true := by
  induction l with
  | nil => rfl
  | cons c t ih => simp [startsW, ih]

/-- The empty string is a substring of every string (`'' in s` is `True`
in Python). -/
theorem substrB_nil (h : List Char) : substrB [] h = true := by
  cases h with
  | nil => rfl
  | cons c t => simp [substrB, startsW]

/-- Every string is a substring of itself. -/
theorem substrB_self (l : List Char) : substrB l l = true := by
  cases l with
  | nil => rfl
  | cons c t => simp [substrB, startsW_refl]

/-- Equation `isEmpty = false` is disequality with the empty list. -/
theorem isEmpty_false_ne (l : List Char) : l.isEmpty = false ↔ l ≠ [] := by
  cases l <;> simp

/-- When the record is found, its amount parses and is not below the
required amount, `verify_payment_with_client_details` reduces to the
identity stage. -/
theorem vwcd_reduces (find : String → Option StoredTx)
    (txid cn cp : String) (req paid : Int) (tx : StoredTx) (insertOk : Bool)
    (hf : find txid = some tx) (hp : parse_amount tx.amount = some paid)
    (hge : ¬ paid < req) :
    verify_payment_with_client_details find txid cn cp req insertOk =
      vwcdIdentity tx cn cp paid insertOk := by
  unfold verify_payment_with_client_details
  rw [hf]
  simp only [hp]
  rw [if_neg hge]

/-- When additionally the name and phone rules pass,
`verify_payment_with_client_details` reduces to the store step. -/
theorem vwcd_all_pass (find : String → Option StoredTx)
    (txid cn cp : String) (req paid : Int) (tx : StoredTx) (insertOk : Bool)
    (hf : find txid = some tx) (hp : parse_amount tx.amount = some paid)
    (hge : ¬ paid < req)
    (hn : name_rule_fails tx cn = false)
    (hph : phone_rule_fails tx cp = false) :
    verify_payment_with_client_details find txid cn cp req insertOk =
      vwcdStore paid insertOk := by
  rw [vwcd_reduces find txid cn cp req paid tx insertOk hf hp hge]
  unfold vwcdIdentity vwcdPhone
  rw [if_neg (by simp [hn]), if_neg (by simp [hph])]

/-! ## Claim theorems: verification engine -/

/-- C1: for a transaction whose record exists and whose amount parses,
`verify_payment` approves on exact payment, reports a shortage of exactly
`required - paid` when underpaid, and approves on overpayment. -/
theorem c1_verify_simple (find : String → Option StoredTx) (txid : String)
    (req paid : Int) (tx : StoredTx)
    (hf : find txid = some tx) (hp : parse_amount tx.amount = some paid) :
    (paid = req → verify_payment find txid req =
      ⟨"approved", "Payment is approved.", none⟩) ∧
    (paid < req → verify_payment find txid req =
      ⟨"not_approved",
       "Payment is not approved. You are short by " ++ toString (req - paid) ++ " RWF.",
       none⟩) ∧
    (req < paid → verify_payment find txid req =
      ⟨"approved", "Payment is approved.", none⟩) := by
  unfold verify_payment
  rw [hf]
  simp only [hp]
  refine ⟨fun h => ?_, fun h => ?_, fun h => ?_⟩
  · rw [if_pos h]
  · rw [if_neg (by omega), if_pos h]
  · rw [if_neg (by omega), if_neg (by omega)]

/-- Witness for C1 at the spec §8 example: `TX1` stored with `"80 RWF"`,
required 100, yields the exact-shortage rejection. -/
theorem c1_verify_simple_witness :
    findC1 "TX1" = some ⟨"80 RWF", "", ""⟩ ∧
    parse_amount "80 RWF" = some 80 ∧
    verify_payment findC1 "TX1" 100 =
      ⟨"not_approved",
       "Payment is not approved. You are short by " ++ toString ((100 : Int) - 80) ++ " RWF.",
       none⟩ :=
  ⟨rfl, by decide,
   (c1_verify_simple findC1 "TX1" 100 80 ⟨"80 RWF", "", ""⟩ rfl (by decide)).2.1
     (by decide)⟩

/-- C2: in `verify_payment_with_client_details` the amount rule rejects
only on strict underpayment; otherwise (equality or overpayment alike)
evaluation proceeds to the identity rules; and the spec §8 `TX2`
overpayment example is approved with amount 150. -/
theorem c2_overpayment_proceeds (find : String → Option StoredTx)
    (txid cn cp : String) (req paid : Int) (tx : StoredTx) (insertOk : Bool)
    (hf : find txid = some tx) (hp : parse_amount tx.amount = some paid) :
    (paid < req → verify_payment_with_client_details find txid cn cp req insertOk =
      ⟨"not_approved",
       "Insufficient payment. You are short by " ++ toString (req - paid) ++ " RWF.",
       none⟩) ∧
    (¬ paid < req → verify_payment_with_client_details find txid cn cp req insertOk =
      vwcdIdentity tx cn cp paid insertOk) ∧
    verify_payment_with_client_details findC2 "TX2" "John Smith" "+250788123456" 100 true =
      ⟨"approved", "Payment verified successfully! Amount received: 150 RWF", some 150⟩ := by
  unfold verify_payment_with_client_details
  rw [hf]
  simp only [hp]
  refine ⟨fun h => ?_, fun h => ?_, by decide⟩
  · rw [if_pos h]
  · rw [if_neg h]

/-- Witness for C2 at the `TX2` record with overpayment (150 against 100):
the amount rule does not reject, and the call reduces to the identity
stage. -/
theorem c2_overpayment_proceeds_witness :
    findC2 "TX2" = some ⟨"150 RWF", "john smith", "56"⟩ ∧
    parse_amount "150 RWF" = some 150 ∧
    verify_payment_with_client_details findC2 "TX2" "John Smith" "+250788123456" 100 true =
      vwcdIdentity ⟨"150 RWF", "john smith", "56"⟩ "John Smith" "+250788123456" 150 true :=
  ⟨rfl, by decide,
   (c2_overpayment_proceeds findC2 "TX2" "John Smith" "+250788123456" 100 150
      ⟨"150 RWF", "john smith", "56"⟩ true rfl (by decide)).2.1 (by decide)⟩

/-- C3: once the amount rule has passed, the name rule passes exactly when
the lowercased-and-trimmed stored sender name is nonempty and one of the
two lowercased-and-trimmed names contains the other (equality included,
since every string is a substring of itself); a failing name rule yields
the name-verification rejection for every claimed phone and every insert
outcome, i.e. without the phone rule being evaluated, and a passing name
rule hands over to the phone stage. -/
theorem c3_name_rule (find : String → Option StoredTx)
    (txid cn cp : String) (req paid : Int) (tx : StoredTx) (insertOk : Bool)
    (hf : find txid = some tx) (hp : parse_amount tx.amount = some paid)
    (hge : ¬ paid < req) :
    (name_rule_fails tx cn = false ↔
      (stripB (lowerL tx.sender_name.data) ≠ [] ∧
       (substrB (stripB (lowerL cn.data)) (stripB (lowerL tx.sender_name.data)) = true ∨
        substrB (stripB (lowerL tx.sender_name.data)) (stripB (lowerL cn.data)) = true))) ∧
    (stripB (lowerL tx.sender_name.data) ≠ [] →
      stripB (lowerL cn.data) = stripB (lowerL tx.sender_name.data) →
      name_rule_fails tx cn = false) ∧
    (name_rule_fails tx cn = true →
      verify_payment_with_client_details find txid cn cp req insertOk =
        ⟨"not_approved",
         "Name verification failed. Please ensure you entered the correct name.", none⟩) ∧
    (name_rule_fails tx cn = false →
      verify_payment_with_client_details find txid cn cp req insertOk =
        vwcdPhone tx cp paid insertOk) := by
  have hmain := vwcd_reduces find txid cn cp req paid tx insertOk hf hp hge
  refine ⟨?_, ?_, ?_, ?_⟩
  · simp only [name_rule_fails, Bool.or_eq_false_iff, Bool.and_eq_false_iff,
      Bool.not_eq_false', isEmpty_false_ne, Bool.not_eq_true']
  · intro h1 h2
    simp only [name_rule_fails, Bool.or_eq_false_iff, Bool.and_eq_false_iff,
      Bool.not_eq_false', isEmpty_false_ne, Bool.not_eq_true']
    exact ⟨h1, Or.inl (by rw [h2]; exact substrB_self _)⟩
  · intro h
    rw [hmain]
    unfold vwcdIdentity
    rw [if_pos h]
  · intro h
    rw [hmain]
    unfold vwcdIdentity
    rw [if_neg (by simp [h])]

/-- Witness for C3 at the `TX2` record: the name rule passes for claimed
name "John Smith" against stored "john smith", and the call reduces to the
phone stage. -/
theorem c3_name_rule_witness :
    name_rule_fails ⟨"150 RWF", "john smith", "56"⟩ "John Smith" = false ∧
    verify_payment_with_client_details findC2 "TX2" "John Smith" "+250788123456" 100 true =
      vwcdPhone ⟨"150 RWF", "john smith", "56"⟩ "+250788123456" 150 true :=
  ⟨by decide,
   (c3_name_rule findC2 "TX2" "John Smith" "+250788123456" 100 150
      ⟨"150 RWF", "john smith", "56"⟩ true rfl (by decide) (by decide)).2.2.2
     (by decide)⟩

/-- C4: when every rule passes, a failing audit insert is converted to an
`error` outcome with a generic message (no exception escapes), and a
successful insert yields `approved` with the amount both in the message
and in the `amount` field. -/
theorem c4_store_boundary (find : String → Option StoredTx)
    (txid cn cp : String) (req paid : Int) (tx : StoredTx)
    (hf : find txid = some tx) (hp : parse_amount tx.amount = some paid)
    (hge : ¬ paid < req)
    (hn : name_rule_fails tx cn = false)
    (hph : phone_rule_fails tx cp = false) :
    (verify_payment_with_client_details find txid cn cp req false =
      ⟨"error", "Failed to record payment verification.", none⟩) ∧
    (verify_payment_with_client_details find txid cn cp req true =
      ⟨"approved",
       "Payment verified successfully! Amount received: " ++ toString paid ++ " RWF",
       some paid⟩) := by
  exact ⟨vwcd_all_pass find txid cn cp req paid tx false hf hp hge hn hph,
         vwcd_all_pass find txid cn cp req paid tx true hf hp hge hn hph⟩

/-- Witness for C4 at the `TX2` record: with all rules passing, the insert
failure gives the `error` outcome and the insert success gives the
approved outcome carrying amount 150. -/
theorem c4_store_boundary_witness :
    verify_payment_with_client_details findC2 "TX2" "John Smith" "+250788123456" 100 false =
      ⟨"error", "Failed to record payment verification.", none⟩ ∧
    verify_payment_with_client_details findC2 "TX2" "John Smith" "+250788123456" 100 true =
      ⟨"approved",
       "Payment verified successfully! Amount received: " ++ toString (150 : Int) ++ " RWF",
       some 150⟩ :=
  c4_store_boundary findC2 "TX2" "John Smith" "+250788123456" 100 150
    ⟨"150 RWF", "john smith", "56"⟩ rfl (by decide) (by decide) (by decide) (by decide)

/-- C9 counterexample: the claim requires only a non-empty stored
`senderName`, but the stored name `" "` is non-empty yet is emptied by
`.lower().strip()`, so the name rule fails and the call is rejected with
the name-verification message instead of being approved — amount, phone
leniency and insert success notwithstanding. -/
theorem c9_counterexample :
    (" " : String) ≠ "" ∧
    parse_amount "150 RWF" = some 150 ∧
    ¬ (150 : Int) < 100 ∧
    stripB (lowerL "  ".data) = [] ∧
    ("" : String).data = [] ∧
    verify_payment_with_client_details findC9 "TX9" "  " "0788" 100 true =
      ⟨"not_approved",
       "Name verification failed. Please ensure you entered the correct name.", none⟩ := by
  refine ⟨by decide, by decide, by norm_num, by decide, rfl, by decide⟩

/-- C9 amended: for every stored record whose sender name is non-empty
after lowercasing and trimming and whose parsed amount is at least the
required amount, a claimed name that is empty after lowercasing and
trimming passes the name rule (the empty string is a substring of every
string), so with matching or absent stored phone digits and a successful
audit insert the call is approved despite the blank claimed name. -/
theorem c9_amended (find : String → Option StoredTx)
    (txid cn cp : String) (req paid : Int) (tx : StoredTx)
    (hf : find txid = some tx) (hp : parse_amount tx.amount = some paid)
    (hge : ¬ paid < req)
    (hsn : stripB (lowerL tx.sender_name.data) ≠ [])
    (hcn : stripB (lowerL cn.data) = [])
    (hph : phone_rule_fails tx cp = false) :
    verify_payment_with_client_details find txid cn cp req true =
      ⟨"approved",
       "Payment verified successfully! Amount received: " ++ toString paid ++ " RWF",
       some paid⟩ := by
  have hn : name_rule_fails tx cn = false := by
    simp only [name_rule_fails, Bool.or_eq_false_iff, Bool.and_eq_false_iff,
      Bool.not_eq_false', isEmpty_false_ne]
    exact ⟨hsn, Or.inl (by rw [hcn]; exact substrB_nil _)⟩
  exact vwcd_all_pass find txid cn cp req paid tx true hf hp hge hn hph

/-- Witness for C9 amended: stored sender `"john smith"`, claimed name
`"  "` (blank), stored phone digits matching — approved with amount 150. -/
theorem c9_amended_witness :
    stripB (lowerL ("john smith" : String).data) ≠ [] ∧
    stripB (lowerL ("  " : String).data) = [] ∧
    phone_rule_fails ⟨"150 RWF", "john smith", "56"⟩ "+250788123456" = false ∧
    verify_payment_with_client_details findC2 "TX2" "  " "+250788123456" 100 true =
      ⟨"approved",
       "Payment verified successfully! Amount received: " ++ toString (150 : Int) ++ " RWF",
       some 150⟩ :=
  ⟨by decide, by decide, by decide,
   c9_amended findC2 "TX2" "  " "+250788123456" 100 150
     ⟨"150 RWF", "john smith", "56"⟩ rfl (by decide) (by decide) (by decide)
     (by decide) (by decide)⟩

/-! ## Claim theorems: field extractor and classifier -/

/-- C5 counterexample: `extract_fields` matches its TxId pattern
case-sensitively (no `re.IGNORECASE` in app.py), so the lower-case input
`"txid: 123"` yields an empty transaction id, not `"123"` as the claim
states. -/
theorem c5_counterexample :
    (extract_fields "txid: 123").txid = "" ∧ ("" : String) ≠ "123" :=
  ⟨by decide, by decide⟩

/-- C5 amended: for every input string, `extract_fields`'s transaction id
is the digit run of the first match of "TxId" matched case-SENSITIVELY,
followed by optional colon/whitespace and one or more digits, with a
fallback to the fixed pattern `*161*TxId:<digits>*R*` (also
case-sensitive) when the first pattern is absent; in particular
`"TxId: 123"` yields `"123"`, the lower-case `"txid: 123"` yields `""`,
and `"*161*TxId:456*R*"` yields `"456"`. -/
theorem c5_amended (s : String) :
    (∀ d : String, searchO matchTxIdAtCS s.data = some d →
      (extract_fields s).txid = d) ∧
    (searchO matchTxIdAtCS s.data = none →
      (extract_fields s).txid = (searchO match161AtCS s.data).getD "") ∧
    (extract_fields "TxId: 123").txid = "123" ∧
    (extract_fields "txid: 123").txid = "" ∧
    (extract_fields "*161*TxId:456*R*").txid = "456" := by
  refine ⟨?_, ?_, by decide, by decide, by decide⟩
  · intro d h
    simp [extract_fields, h]
  · intro h
    simp [extract_fields, h]

/-- Witness for C5 amended at `"TxId: 123"`: the case-sensitive pattern
matches with digit run `"123"`, which is the extracted transaction id. -/
theorem c5_amended_witness :
    searchO matchTxIdAtCS ("TxId: 123" : String).data = some "123" ∧
    (extract_fields "TxId: 123").txid = "123" :=
  ⟨by decide, (c5_amended "TxId: 123").1 "123" (by decide)⟩

/-- C6: a status other than `unknown` implies the message was classified
payment-related; and the converse fails — `"*161*TxId:12345*R*"` passes
the gate through the MoMo format pattern alone, yet no keyword decides a
status, so its status is `unknown`. -/
theorem c6_status_gate :
    (∀ s : List Char, classify_payment_status s ≠ "unknown" →
      is_payment_related s = true) ∧
    (is_payment_related ("*161*TxId:12345*R*" : String).data = true ∧
     classify_payment_status ("*161*TxId:12345*R*" : String).data = "unknown") := by
  refine ⟨?_, by decide, by decide⟩
  intro s h
  cases hrel : is_payment_related s with
  | true => rfl
  | false =>
    exfalso
    apply h
    simp [classify_payment_status, hrel]

/-- Witness for C6 at `"payment received"`: its status is `success`
(≠ `unknown`), so the theorem yields that it is payment-related. -/
theorem c6_status_gate_witness :
    classify_payment_status ("payment received" : String).data ≠ "unknown" ∧
    is_payment_related ("payment received" : String).data = true :=
  ⟨by decide, c6_status_gate.1 ("payment received" : String).data (by decide)⟩

/-- C8: extraction is total — both extractors are total functions of the
input string by construction — and every unmatched field defaults to the
empty string, the timestamp to `none`; the raw text is passed through
unchanged. -/
theorem c8_extract_total (s : String) :
    (searchO matchTxIdAtCS s.data = none →
      searchO match161AtCS s.data = none →
      (extract_fields s).txid = "") ∧
    (searchO matchAmountAt s.data = none → (extract_fields s).amount = "") ∧
    (searchO matchSenderAppAt s.data = none → (extract_fields s).sender_name = "") ∧
    (searchO matchTimestampAt s.data = none → (extract_fields s).timestamp = none) ∧
    (searchO matchPhoneAt s.data = none →
      (extract_payment_info s.data).phone_digits = "") ∧
    (extract_fields s).raw_text = s := by
  refine ⟨?_, ?_, ?_, ?_, ?_, rfl⟩
  · intro h1 h2
    simp [extract_fields, h1, h2]
  · intro h
    simp [extract_fields, h]
  · intro h
    simp [extract_fields, h]
  · intro h
    simp [extract_fields, h]
  · intro h
    cases hrel : is_payment_related s.data with
    | false => simp [extract_payment_info, hrel]
    | true => simp [extract_payment_info, hrel, h]

/-- Witness for C8 at `"hello"`: no pattern matches, and every field is
its default. -/
theorem c8_extract_total_witness :
    searchO matchTxIdAtCS ("hello" : String).data = none ∧
    searchO match161AtCS ("hello" : String).data = none ∧
    searchO matchAmountAt ("hello" : String).data = none ∧
    searchO matchSenderAppAt ("hello" : String).data = none ∧
    searchO matchTimestampAt ("hello" : String).data = none ∧
    searchO matchPhoneAt ("hello" : String).data = none ∧
    (extract_fields "hello").txid = "" ∧
    (extract_fields "hello").amount = "" ∧
    (extract_fields "hello").sender_name = "" ∧
    (extract_fields "hello").timestamp = none ∧
    (extract_payment_info ("hello" : String).data).phone_digits = "" :=
  ⟨by decide, by decide, by decide, by decide, by decide, by decide,
   (c8_extract_total "hello").1 (by decide) (by decide),
   (c8_extract_total "hello").2.1 (by decide),
   (c8_extract_total "hello").2.2.1 (by decide),
   (c8_extract_total "hello").2.2.2.1 (by decide),
   (c8_extract_total "hello").2.2.2.2.1 (by decide)⟩

/-- C10: on the classifier path, a message that is not classified
payment-related gets the all-empty extraction record with
`is_payment_sms = false` — field extraction is gated on the relatedness
classification, even when the text carries a parseable TxId or RWF
amount. -/
theorem c10_gated (s : List Char) (h : is_payment_related s = false) :
    extract_payment_info s = ⟨"", "", "", "", false⟩ := by
  simp [extract_payment_info, h]

/-- Witness for C10 at `"TxId: 99 and 500 RWF fee tomorrow"`: the text is
not payment-related, yet both the TxId and the amount pattern would
match — and extraction still returns the all-empty record. -/
theorem c10_gated_witness :
    is_payment_related ("TxId: 99 and 500 RWF fee tomorrow" : String).data = false ∧
    (searchO matchTxIdAtCI ("TxId: 99 and 500 RWF fee tomorrow" : String).data).isSome = true ∧
    (searchO matchAmountAt ("TxId: 99 and 500 RWF fee tomorrow" : String).data).isSome = true ∧
    extract_payment_info ("TxId: 99 and 500 RWF fee tomorrow" : String).data =
      ⟨"", "", "", "", false⟩ :=
  ⟨by decide, by decide, by decide,
   c10_gated ("TxId: 99 and 500 RWF fee tomorrow" : String).data (by decide)⟩

/-! ## Append-stability of the matchers

These lemmas show that evidence (a format-pattern match, a keyword
occurrence) found in a text persists when more text is appended; they
drive the confidence-monotonicity claim. -/

/-- A literal match is stable under appending to the input. -/
theorem litAt_append (p : List Char) :
    ∀ l t r, litAt p l = some r → litAt p (l ++ t) = some (r ++ t) := by
  induction p with
  | nil =>
    intro l t r h
    simp only [litAt] at h ⊢
    rw [← Option.some_inj.mp h]
  | cons c ps ih =>
    intro l t r h
    cases l with
    | nil => exact absurd h (by simp [litAt])
    | cons a as =>
      simp only [litAt] at h ⊢
      by_cases hac : a = c
      · rw [if_pos hac] at h ⊢
        exact ih as t r h
      · rw [if_neg hac] at h
        exact absurd h (by simp)

/-- A case-insensitive literal match is stable under appending. -/
theorem litAtCI_append (p : List Char) :
    ∀ l t r, litAtCI p l = some r → litAtCI p (l ++ t) = some (r ++ t) := by
  induction p with
  | nil =>
    intro l t r h
    simp only [litAtCI] at h ⊢
    rw [← Option.some_inj.mp h]
  | cons c ps ih =>
    intro l t r h
    cases l with
    | nil => exact absurd h (by simp [litAtCI])
    | cons a as =>
      simp only [litAtCI] at h ⊢
      by_cases hac : a.toLower = c.toLower
      · rw [if_pos hac] at h ⊢
        exact ih as t r h
      · rw [if_neg hac] at h
        exact absurd h (by simp)

/-- A nonempty case-insensitive literal cannot match the empty input. -/
theorem litAtCI_ne_nil (c : Char) (p : List Char) (l : List Char) (r : List Char)
    (h : litAtCI (c :: p) l = some r) : l ≠ [] := by
  intro hl
  subst hl
  simp [litAtCI] at h

/-- Unfolding equation for `classRun` on a matching head. -/
theorem classRun_cons_pos (p : Char → Bool) (c : Char) (l : List Char)
    (h : p c = true) :
    classRun p (c :: l) = (c :: (classRun p l).1, (classRun p l).2) := by
  simp [classRun, h]

/-- Unfolding equation for `classRun` on a non-matching head. -/
theorem classRun_cons_neg (p : Char → Bool) (c : Char) (l : List Char)
    (h : p c = false) :
    classRun p (c :: l) = ([], c :: l) := by
  simp [classRun, h]

/-- A greedy class run is stable under appending, provided the run was
terminated inside the original input (nonempty rest). -/
theorem classRun_append (p : Char → Bool) :
    ∀ l t, (classRun p l).2 ≠ [] →
      classRun p (l ++ t) = ((classRun p l).1, (classRun p l).2 ++ t) := by
  intro l
  induction l with
  | nil =>
    intro t h
    exact absurd rfl h
  | cons c l' ih =>
    intro t h
    by_cases hc : p c
    · have h' : (classRun p l').2 ≠ [] := by
        rw [classRun_cons_pos p c l' hc] at h
        exact h
      rw [List.cons_append, classRun_cons_pos p c (l' ++ t) hc,
        classRun_cons_pos p c l' hc, ih t h']
    · have hc' : p c = false := by simpa using hc
      rw [List.cons_append, classRun_cons_neg p c (l' ++ t) hc',
        classRun_cons_neg p c l' hc']
      rfl

/-- Pattern `\*161\*TxId:\d+\*R\*` (case-insensitive) found at a position is
still found there after appending. -/
theorem match161AtCI_append (l t : List Char) (d : String)
    (h : match161AtCI l = some d) : match161AtCI (l ++ t) = some d := by
  unfold match161AtCI at h ⊢
  split at h
  · exact absurd h (by simp)
  next r hl =>
    rw [litAtCI_append _ l t r hl]
    dsimp only
    split at h
    next d0 r2 hd =>
      split at h
      · exact absurd h (by simp)
      next h0 =>
        split at h
        next r3 hr =>
          have hr2ne : r2 ≠ [] := litAtCI_ne_nil '*' _ r2 r3 hr
          have hd' : classRun Char.isDigit r = (d0, r2) := hd
          have hdig : digitRun (r ++ t) = (d0, r2 ++ t) := by
            show classRun Char.isDigit (r ++ t) = (d0, r2 ++ t)
            rw [classRun_append Char.isDigit r t (by rw [hd']; exact hr2ne), hd']
          rw [hdig]
          dsimp only
          rw [if_neg h0, litAtCI_append _ r2 t r3 hr]
          exact h
        · exact absurd h (by simp)

/-- A `You have received/sent \d+ RWF` hit at a position survives
appending. -/
theorem matchYouAt_append (mid l t : List Char)
    (h : matchYouAt mid l = true) : matchYouAt mid (l ++ t) = true := by
  unfold matchYouAt at h ⊢
  split at h
  · exact absurd h (by simp)
  next r hl =>
    rw [litAtCI_append _ l t r hl]
    dsimp only
    split at h
    next d0 r2 hd =>
      rw [Bool.and_eq_true] at h
      cases hr : litAtCI " RWF".data r2 with
      | none =>
        rw [hr] at h
        simp at h
      | some r3 =>
        have hr2ne : r2 ≠ [] := litAtCI_ne_nil ' ' _ r2 r3 hr
        have hd' : classRun Char.isDigit r = (d0, r2) := hd
        have hdig : digitRun (r ++ t) = (d0, r2 ++ t) := by
          show classRun Char.isDigit (r ++ t) = (d0, r2 ++ t)
          rw [classRun_append Char.isDigit r t (by rw [hd']; exact hr2ne), hd']
        rw [hdig]
        dsimp only
        rw [Bool.and_eq_true]
        exact ⟨h.1, by rw [litAtCI_append _ r2 t r3 hr]; rfl⟩

/-- A matcher hit at the head position makes the search succeed. -/
theorem searchB_head (m : List Char → Bool) (l : List Char)
    (h : m l = true) : searchB m l = true := by
  cases l with
  | nil => exact h
  | cons c t => simp [searchB, h]

/-- If hits of `m` are stable under appending, so are search hits. -/
theorem searchB_append (m : List Char → Bool)
    (hm : ∀ l t, m l = true → m (l ++ t) = true) :
    ∀ s t, searchB m s = true → searchB m (s ++ t) = true := by
  intro s
  induction s with
  | nil =>
    intro t h
    exact searchB_head m t (by simpa using hm [] t h)
  | cons c s' ih =>
    intro t h
    simp only [searchB, Bool.or_eq_true] at h ⊢
    rcases h with h | h
    · exact Or.inl (hm (c :: s') t h)
    · exact Or.inr (ih t h)

/-- A MoMo-format hit survives appending text. -/
theorem momoHit_append (s t : List Char) (h : momoHit s = true) :
    momoHit (s ++ t) = true := by
  simp only [momoHit, Bool.or_eq_true] at h ⊢
  rcases h with (h | h) | h
  · refine Or.inl (Or.inl ?_)
    refine searchB_append _ ?_ s t h
    intro l r hl
    obtain ⟨d, hd⟩ := Option.isSome_iff_exists.mp hl
    exact Option.isSome_iff_exists.mpr ⟨d, match161AtCI_append l r d hd⟩
  · exact Or.inl (Or.inr (searchB_append _ (matchYouAt_append _) s t h))
  · exact Or.inr (searchB_append _ (matchYouAt_append _) s t h)

/-- A prefix stays a prefix after appending. -/
theorem startsW_append (n : List Char) :
    ∀ h t, startsW n h = true → startsW n (h ++ t) = true := by
  induction n with
  | nil => intro h t _; cases h <;> rfl
  | cons a as ih =>
    intro h t hs
    cases h with
    | nil => exact absurd hs (by simp [startsW])
    | cons b bs =>
      simp only [startsW, Bool.and_eq_true] at hs ⊢
      exact ⟨hs.1, ih bs t hs.2⟩

/-- A substring occurrence survives appending (Python `n in h` is monotone
in `h` under extension on the right). -/
theorem substrB_append (n : List Char) :
    ∀ h t, substrB n h = true → substrB n (h ++ t) = true := by
  intro h
  induction h with
  | nil =>
    intro t hs
    simp only [substrB, List.isEmpty_iff] at hs
    subst hs
    simpa using substrB_nil t
  | cons c h' ih =>
    intro t hs
    simp only [substrB, Bool.or_eq_true] at hs ⊢
    rcases hs with hs | hs
    · exact Or.inl (by simpa using startsW_append n (c :: h') t hs)
    · exact Or.inr (ih t hs)

/-- Filtering with a weaker predicate keeps at least as many elements. -/
theorem length_filter_mono {α : Type} (p q : α → Bool)
    (h : ∀ x, p x = true → q x = true) (l : List α) :
    (l.filter p).length ≤ (l.filter q).length := by
  induction l with
  | nil => simp
  | cons c t ih =>
    rw [List.filter_cons, List.filter_cons]
    by_cases hp : p c
    · rw [if_pos hp, if_pos (h c hp)]
      simpa using ih
    · rw [if_neg hp]
      by_cases hq : q c
      · rw [if_pos hq]
        exact le_trans ih (by simp)
      · rw [if_neg hq]
        exact ih

/-- Keyword hit counts never decrease when text is appended. -/
theorem countKw_append (kws : List String) (a b : List Char) :
    countKw kws a ≤ countKw kws (a ++ b) := by
  unfold countKw
  exact length_filter_mono _ _ (fun k hk => substrB_append k.data a b hk) kws

/-- A character failing the predicate survives `dropWhile`. -/
theorem mem_dropWhile_of_not (p : Char → Bool) (c : Char) :
    ∀ l : List Char, c ∈ l → p c = false → c ∈ l.dropWhile p := by
  intro l
  induction l with
  | nil => intro h _; simp at h
  | cons a t ih =>
    intro hc hnp
    rw [List.dropWhile_cons]
    by_cases ha : p a
    · rw [if_pos ha]
      rcases List.mem_cons.mp hc with rfl | hct
      · rw [hnp] at ha; simp at ha
      · exact ih hct hnp
    · rw [if_neg ha]
      exact hc

/-- Function `strip` yields the empty string exactly when every character is
whitespace. -/
theorem stripB_nil_iff (l : List Char) :
    stripB l = [] ↔ ∀ c ∈ l, isWsB c = true := by
  unfold stripB
  rw [List.reverse_eq_nil_iff, List.dropWhile_eq_nil_iff]
  constructor
  · intro h c hc
    by_cases hw : isWsB c
    · exact hw
    · exact absurd
        (h c (List.mem_reverse.mpr
          (mem_dropWhile_of_not isWsB c l hc (by simpa using hw))))
        (by simpa using hw)
  · intro h c hc
    exact h c (List.dropWhile_subset isWsB (List.mem_reverse.mp hc))

/-- The confidence score is nonnegative. -/
theorem conf_nonneg (s : List Char) : 0 ≤ get_confidence_score s := by
  unfold get_confidence_score
  by_cases h : (stripB s).isEmpty
  · rw [if_pos h]
  · rw [if_neg h]
    apply le_min (by norm_num)
    apply add_nonneg
    · by_cases hm : momoHit s
      · rw [if_pos hm]; norm_num
      · rw [if_neg hm]
    · apply le_min (by norm_num)
      apply mul_nonneg (by positivity) (by norm_num)

/-- C7: appending a success or failure keyword to a payment-related text
never decreases the confidence score. -/
theorem c7_confidence_monotone (s : List Char) (k : String)
    (_hrel : is_payment_related s = true)
    (_hk : k ∈ success_keywords ∨ k ∈ failure_keywords) :
    get_confidence_score s ≤ get_confidence_score (s ++ k.data) := by
  by_cases hstrip : (stripB s).isEmpty
  · have h0 : get_confidence_score s = 0 := by
      unfold get_confidence_score
      rw [if_pos hstrip]
    rw [h0]
    exact conf_nonneg _
  · have hstrip2 : ¬ (stripB (s ++ k.data)).isEmpty := by
      intro hc
      apply hstrip
      rw [List.isEmpty_iff] at hc ⊢
      rw [stripB_nil_iff] at hc ⊢
      intro c hcs
      exact hc c (List.mem_append.mpr (Or.inl hcs))
    unfold get_confidence_score
    rw [if_neg hstrip, if_neg hstrip2]
    apply min_le_min le_rfl
    apply add_le_add
    · by_cases hm : momoHit s
      · rw [if_pos hm, if_pos (momoHit_append s k.data hm)]
      · rw [if_neg hm]
        by_cases hm2 : momoHit (s ++ k.data)
        · rw [if_pos hm2]; norm_num
        · rw [if_neg hm2]
    · apply min_le_min le_rfl
      apply mul_le_mul_of_nonneg_right _ (by norm_num)
      rw [lowerL, lowerL, List.map_append]
      have h1 := countKw_append success_keywords (s.map Char.toLower) (k.data.map Char.toLower)
      have h2 := countKw_append failure_keywords (s.map Char.toLower) (k.data.map Char.toLower)
      exact_mod_cast Nat.add_le_add h1 h2

/-- Witness for C7: `"payment received"` is payment-related, `"paid"` is a
success keyword, and appending it does not decrease confidence. -/
theorem c7_confidence_monotone_witness :
    is_payment_related ("payment received" : String).data = true ∧
    ("paid" : String) ∈ success_keywords ∧
    get_confidence_score ("payment received" : String).data ≤
      get_confidence_score (("payment received" : String).data ++ ("paid" : String).data) :=
  ⟨by decide, by decide,
   c7_confidence_monotone ("payment received" : String).data "paid"
     (by decide) (Or.inl (by decide))⟩
